import Mathlib

/-!
# Verification of the vidtube-backend session-authentication core

Shallow embedding of the authentication subsystem of the vidtube backend:
the controller `src/controllers/user.controller.js` (register, login, logout,
refresh-token) together with the persisted `refreshToken` field of the user
record. The routes file mounts exactly this controller, so it is the
authoritative implementation embedded here.

The user model (`models/user.model.js`, providing `generateAccessToken`,
`generateRefreshToken`, `isPasswordCorrect`) and the external `jwt` and
`bcrypt` libraries are not part of the given sources; those leaves are
modelled from the spec (§3 data model, §4.1 credential verifier, §4.2 token
issuer) and each such definition is marked `Modelled from the spec:` in its
doc comment. Everything else is translated directly from the controller.
-/

namespace VidTube

/-- Token kind discriminator, spec §3: `token kind = "access"` or `"refresh"`. -/
inductive TokenKind where
  | access
  | refresh
deriving DecidableEq, Repr

/-- Modelled from the spec: the signed token claims of §3
(`AccessTokenClaims` / `RefreshTokenClaims`): subject id, issued-at,
expires-at, token kind, plus the identity of the signing key (`key`), which
models the signature. Two tokens are bit-equal exactly when all claims and
the signing key agree (a JWT string is a deterministic function of payload
and key). The concrete minting code lives in the user model file, which is
absent from the given sources. -/
structure TokenClaims where
  sub : Nat
  iat : Nat
  exp : Nat
  kind : TokenKind
  key : Nat
deriving DecidableEq, Repr

/-- Process-wide signing configuration (spec §4.2, §6: "a configuration
source providing the signing key(s) and token lifetimes"). -/
structure AuthConfig where
  accessSecret : Nat
  refreshSecret : Nat
  accessTtl : Nat
  refreshTtl : Nat
deriving DecidableEq, Repr

/-- Modelled from the spec: `user.generateAccessToken()` — mints the signed
access token for the user at the current instant (short expiry). -/
def generateAccessToken (cfg : AuthConfig) (userId now : Nat) : TokenClaims :=
  { sub := userId, iat := now, exp := now + cfg.accessTtl,
    kind := TokenKind.access, key := cfg.accessSecret }

/-- Modelled from the spec: `user.generateRefreshToken()` — mints the signed
refresh token for the user at the current instant (long expiry). -/
def generateRefreshToken (cfg : AuthConfig) (userId now : Nat) : TokenClaims :=
  { sub := userId, iat := now, exp := now + cfg.refreshTtl,
    kind := TokenKind.refresh, key := cfg.refreshSecret }

/-- Modelled from the spec: `jwt.verify(token, secret)` — succeeds (returning
the decoded payload) iff the token was signed with `secret` and has not
expired at instant `now`; on failure the controller's catch turns this into
an error. -/
def jwtVerify (secret now : Nat) (tok : TokenClaims) : Option TokenClaims :=
  if tok.key = secret ∧ now < tok.exp then some tok else none

/-- Modelled from the spec: the one-way password hash behind
`user.isPasswordCorrect` (§4.1). The tag makes the model hash injective,
standing in for correctness of the underlying comparison. -/
def bcryptHash (plain : String) : String := "bcrypt$" ++ plain

/-- Modelled from the spec: `verify(plainSecret, storedHash) -> bool`
(§4.1); an absent secret never verifies. -/
def isPasswordCorrect (storedHash : String) (plain : Option String) : Bool :=
  match plain with
  | none => false
  | some p => bcryptHash p == storedHash

/-- The persisted principal record (spec §3): the auth core reads the hash
and reads/writes the nullable `refreshToken` field
(`currentRefreshToken`). -/
structure UserRec where
  id : Nat
  username : String
  email : String
  passwordHash : String
  refreshToken : Option TokenClaims
deriving DecidableEq, Repr

/-- The persistence layer: the collection of principal records. -/
abbrev DB := List UserRec

/-- `User.findById(id)`. -/
def findById (db : DB) (i : Nat) : Option UserRec :=
  db.find? (fun u => u.id == i)

/-- `User.findOne({ $or: [{ username }, { email }] })`: first record whose
username or email equals the corresponding supplied field. -/
def findByUsernameOrEmail (db : DB) (username email : Option String) : Option UserRec :=
  db.find? (fun u => username == some u.username || email == some u.email)

/-- `user.save(...)` after mutating a document loaded from the store: writes
the document back unconditionally (a blind overwrite of every record with
that id — there is no compare against a previously read value). -/
def saveUser (db : DB) (u : UserRec) : DB :=
  db.map (fun v => if v.id == u.id then u else v)

/-- Domain error of `ApiError(statusCode, message)`. -/
structure ApiError where
  statusCode : Nat
  message : String
deriving DecidableEq, Repr

/-- `generateAccessAndRefreshToken(userID)` from the controller: find the
user (404 if absent), mint both tokens, store the refresh token on the user
record and save, return both tokens (together with the updated store). -/
def generateAccessAndRefreshToken (cfg : AuthConfig) (now : Nat) (db : DB) (userID : Nat) :
    Except ApiError (TokenClaims × TokenClaims × DB) :=
  match findById db userID with
  | none => Except.error ⟨404, "User not found"⟩
  | some user =>
      let accessToken := generateAccessToken cfg user.id now
      let refreshToken := generateRefreshToken cfg user.id now
      let db2 := saveUser db { user with refreshToken := some refreshToken }
      Except.ok (accessToken, refreshToken, db2)

/-- Identity payload of a principal after `.select("-password -refreshToken")`. -/
structure PublicUser where
  id : Nat
  username : String
  email : String
deriving DecidableEq, Repr

/-- Strip the sensitive fields of a record. -/
def toPublic (u : UserRec) : PublicUser :=
  { id := u.id, username := u.username, email := u.email }

/-- Body of a `POST /login` request. -/
structure LoginRequest where
  email : Option String
  username : Option String
  password : Option String
deriving DecidableEq, Repr

/-- JavaScript truthiness of an optional string field (`undefined` and the
empty string are falsy). -/
def truthy : Option String → Bool
  | none => false
  | some s => !(s == "")

/-- Successful login response: 200 with the two `httpOnly`/`secure` cookies
and the json body `{ user, accessToken, refreshToken }`. -/
structure LoginSuccess where
  user : Option PublicUser
  accessToken : TokenClaims
  refreshToken : TokenClaims
  cookies : List (String × TokenClaims)
deriving DecidableEq, Repr

/-- `loginUser` from the controller: 400 when neither username nor email is
supplied, 404 when no matching user exists, 401 when the password does not
verify, otherwise mint-and-store tokens and answer 200 with both cookies and
the refetched identity payload. -/
def loginUser (cfg : AuthConfig) (now : Nat) (db : DB) (req : LoginRequest) :
    Except ApiError LoginSuccess × DB :=
  if !(truthy req.username || truthy req.email) then
    (Except.error ⟨400, "Username or email required"⟩, db)
  else
    match findByUsernameOrEmail db req.username req.email with
    | none => (Except.error ⟨404, "User not found"⟩, db)
    | some user =>
        if !(isPasswordCorrect user.passwordHash req.password) then
          (Except.error ⟨401, "Wrong password"⟩, db)
        else
          match generateAccessAndRefreshToken cfg now db user.id with
          | Except.error e => (Except.error e, db)
          | Except.ok (acc, ref, db2) =>
              (Except.ok { user := (findById db2 user.id).map toPublic,
                           accessToken := acc, refreshToken := ref,
                           cookies := [("accessToken", acc), ("refreshToken", ref)] }, db2)

/-- Logout response: 200 with both cookies cleared. -/
structure LogoutResponse where
  statusCode : Nat
  clearedCookies : List String
deriving DecidableEq, Repr

/-- `logoutUser`: `findByIdAndUpdate(req.user._id, { $set: { refreshToken:
null } })`, then 200 clearing both cookies. -/
def logoutUser (db : DB) (authedUserId : Nat) : LogoutResponse × DB :=
  (⟨200, ["accessToken", "refreshToken"]⟩,
   db.map (fun v => if v.id == authedUserId then { v with refreshToken := none } else v))

/-- A `POST /refresh-token` request: the token may sit in the cookie slot or
in the body. -/
structure RefreshRequest where
  cookieToken : Option TokenClaims
  bodyToken : Option TokenClaims
deriving DecidableEq, Repr

/-- `req.cookies?.refreshToken || req.body?.refreshToken`: the cookie when
present, otherwise the body field. -/
def incomingRefreshToken (req : RefreshRequest) : Option TokenClaims :=
  match req.cookieToken with
  | some t => some t
  | none => req.bodyToken

/-- Validation phase of `refreshAccessToken` (steps 1–4 of the controller):
extract the candidate, verify signature and expiry, find the claimed user
and compare the candidate bit-for-bit with the stored token. Reads the
store; never writes it. -/
def refreshValidate (cfg : AuthConfig) (now : Nat) (db : DB) (req : RefreshRequest) :
    Except ApiError UserRec :=
  match incomingRefreshToken req with
  | none => Except.error ⟨401, "Unauthorized"⟩
  | some tok =>
      match jwtVerify cfg.refreshSecret now tok with
      | none => Except.error ⟨401, "Invalid refresh token"⟩
      | some decoded =>
          match findById db decoded.sub with
          | none => Except.error ⟨401, "Invalid refresh token"⟩
          | some user =>
              if some tok == user.refreshToken then Except.ok user
              else Except.error ⟨401, "Invalid refresh token"⟩

/-- Successful refresh response: 200 with the two rotated cookies and the
json body `{ accessToken, refreshToken }`. -/
structure RefreshSuccess where
  accessToken : TokenClaims
  refreshToken : TokenClaims
  cookies : List (String × TokenClaims)
deriving DecidableEq, Repr

/-- Write phase of `refreshAccessToken` (steps 5–6): on a validated user,
call `generateAccessAndRefreshToken` (which blindly persists the new refresh
token) and build the 200 response. -/
def refreshFinish (cfg : AuthConfig) (now : Nat) (db : DB)
    (v : Except ApiError UserRec) : Except ApiError RefreshSuccess × DB :=
  match v with
  | Except.error e => (Except.error e, db)
  | Except.ok user =>
      match generateAccessAndRefreshToken cfg now db user.id with
      | Except.error e => (Except.error e, db)
      | Except.ok (acc, ref, db2) =>
          (Except.ok { accessToken := acc, refreshToken := ref,
                       cookies := [("accessToken", acc), ("refreshToken", ref)] }, db2)

/-- `refreshAccessToken` from the controller: validate, then rotate. -/
def refreshAccessToken (cfg : AuthConfig) (now : Nat) (db : DB) (req : RefreshRequest) :
    Except ApiError RefreshSuccess × DB :=
  refreshFinish cfg now db (refreshValidate cfg now db req)

/-- The interleaving of two concurrent `refreshAccessToken` handlers, both
presenting the same request, in which both validation (read) phases run
before either write phase — realisable because the store is only touched at
those two points and the write is not conditioned on the stored value. -/
def twoConcurrentRefresh (cfg : AuthConfig) (now : Nat) (db : DB) (req : RefreshRequest) :
    (Except ApiError RefreshSuccess) × (Except ApiError RefreshSuccess) × DB :=
  let vA := refreshValidate cfg now db req
  let vB := refreshValidate cfg now db req
  let rA := refreshFinish cfg now db vA
  let rB := refreshFinish cfg now rA.2 vB
  (rA.1, rB.1, rB.2)

/-- Body of a `POST /register` request (auth-relevant fields). -/
structure RegisterRequest where
  fullname : Option String
  email : Option String
  username : Option String
  password : Option String
deriving DecidableEq, Repr

/-- ASCII whitespace stripped by `String.prototype.trim` (the Unicode
whitespace beyond these is immaterial here). -/
def isJsWhitespace (c : Char) : Bool :=
  c == ' ' || c == '\t' || c == '\n' || c == '\r'

/-- JavaScript `s.trim()`: strip leading and trailing whitespace. -/
def jsTrim (s : String) : String :=
  String.mk (((s.data.dropWhile isJsWhitespace).reverse.dropWhile isJsWhitespace).reverse)

/-- `v?.trim() === ""`: an absent field is `undefined?.trim()`, which is
`undefined`, never `=== ""`; only a supplied field trimming to the empty
string tests true. -/
def trimsToEmpty : Option String → Bool
  | none => false
  | some s => jsTrim s == ""

/-- Outcome of the auth-relevant prefix of `registerUser`; the later stages
(avatar upload, record creation) touch only external collaborators declared
out of scope by spec §1 and are summarised by `proceedsPastDuplicateCheck`. -/
inductive RegisterOutcome where
  | fieldsRequiredError
  | duplicateError
  | proceedsPastDuplicateCheck
deriving DecidableEq, Repr

/-- `registerUser` (auth-relevant prefix): 400 "All fields are required"
when some field trims to the empty string, else the duplicate-user lookup:
409 on a hit, otherwise the handler proceeds (avatar and creation stages). -/
def registerUser (db : DB) (req : RegisterRequest) : RegisterOutcome :=
  if [req.fullname, req.email, req.username, req.password].any trimsToEmpty then
    RegisterOutcome.fieldsRequiredError
  else
    match findByUsernameOrEmail db req.username req.email with
    | some _ => RegisterOutcome.duplicateError
    | none => RegisterOutcome.proceedsPastDuplicateCheck

/-! ## Store lemmas -/

/-- A record returned by `findById` carries the looked-up id. -/
theorem findById_id (db : DB) (i : Nat) (u : UserRec) (h : findById db i = some u) :
    u.id = i := by
  rw [findById] at h
  have h2 := List.find?_some h
  simpa using h2

/-- `findById` commutes with an id-preserving per-record update of the
store. -/
theorem findById_map (f : UserRec → UserRec) (hf : ∀ v, (f v).id = v.id)
    (db : DB) (i : Nat) :
    findById (db.map f) i = (findById db i).map f := by
  rw [findById, List.find?_map]
  have hp : ((fun u : UserRec => u.id == i) ∘ f) = (fun u : UserRec => u.id == i) := by
    funext v
    simp [Function.comp, hf v]
  rw [hp]
  rfl

/-- After `saveUser db u`, looking up `u.id` yields `u`, provided some
record with that id was present. -/
theorem findById_saveUser (db : DB) (u : UserRec) (w : UserRec)
    (h : findById db u.id = some w) :
    findById (saveUser db u) u.id = some u := by
  have hf : ∀ v : UserRec, ((fun v => if v.id == u.id then u else v) v).id = v.id := by
    intro v
    by_cases hv : v.id = u.id
    · simp [hv]
    · simp [hv]
  have := findById_map (fun v => if v.id == u.id then u else v) hf db u.id
  rw [saveUser, this, h]
  have hw : w.id = u.id := findById_id db u.id w h
  simp [hw]

/-- Inversion of a successful `generateAccessAndRefreshToken`: there is a
record at the id, the tokens are freshly minted for it and the store was
(blindly) rewritten with the new refresh token. -/
theorem generate_ok_inv (cfg : AuthConfig) (now : Nat) (db : DB) (uid : Nat)
    (acc ref : TokenClaims) (db2 : DB)
    (h : generateAccessAndRefreshToken cfg now db uid = Except.ok (acc, ref, db2)) :
    ∃ w : UserRec, findById db uid = some w ∧ w.id = uid ∧
      acc = generateAccessToken cfg w.id now ∧
      ref = generateRefreshToken cfg w.id now ∧
      db2 = saveUser db { w with refreshToken := some ref } := by
  simp only [generateAccessAndRefreshToken] at h
  cases hf : findById db uid with
  | none =>
      rw [hf] at h
      simp at h
  | some w =>
      rw [hf] at h
      simp only [Except.ok.injEq, Prod.mk.injEq] at h
      obtain ⟨h1, h2, h3⟩ := h
      exact ⟨w, rfl, findById_id db uid w hf, h1.symm, h2.symm, by rw [← h2, ← h3]⟩

/-- Inversion of a successful `refreshValidate`: the candidate came from the
request, passed signature and expiry verification, and is bit-equal to the
stored token of the found principal. -/
theorem refreshValidate_ok_inv (cfg : AuthConfig) (now : Nat) (db : DB)
    (req : RefreshRequest) (u : UserRec)
    (h : refreshValidate cfg now db req = Except.ok u) :
    ∃ tok : TokenClaims, incomingRefreshToken req = some tok ∧
      jwtVerify cfg.refreshSecret now tok = some tok ∧
      findById db tok.sub = some u ∧ some tok = u.refreshToken := by
  simp only [refreshValidate] at h
  split at h
  · simp at h
  next tok hin =>
    split at h
    · simp at h
    next decoded hjv =>
      have hdec : decoded = tok := by
        rw [jwtVerify] at hjv
        by_cases hc : tok.key = cfg.refreshSecret ∧ now < tok.exp
        · rw [if_pos hc] at hjv
          exact (Option.some.injEq tok decoded).mp hjv |>.symm
        · rw [if_neg hc] at hjv
          cases hjv
      subst hdec
      split at h
      · simp at h
      next user hfi =>
        split at h
        next hbe =>
          simp only [Except.ok.injEq] at h
          subst h
          exact ⟨decoded, hin, hjv, hfi, by simpa using hbe⟩
        next hbe =>
          simp at h

/-! ## Claim theorems -/

/-- C1: single-use rotation. If the store holds `r1` for the principal and a
refresh request presents the signature-valid, unexpired `r1`, the request
succeeds and returns a refresh token different from `r1` (issuance happens
strictly later than `r1`'s issued-at instant, so the claims differ); any
subsequent refresh presenting `r1` against the resulting store fails with
the 401 AuthenticationError, at every later instant `t3`. -/
theorem C1_single_use_rotation (cfg : AuthConfig) (db : DB) (user : UserRec)
    (r1 : TokenClaims) (t2 : Nat) (req : RefreshRequest)
    (hmem : findById db user.id = some user)
    (hstored : user.refreshToken = some r1)
    (hsub : r1.sub = user.id)
    (hkey : r1.key = cfg.refreshSecret)
    (hunexp : t2 < r1.exp)
    (hfresh : r1.iat < t2)
    (hreq : incomingRefreshToken req = some r1) :
    ∃ (succ : RefreshSuccess) (db2 : DB),
      refreshAccessToken cfg t2 db req = (Except.ok succ, db2) ∧
      succ.refreshToken ≠ r1 ∧
      ∀ t3 : Nat, (refreshAccessToken cfg t3 db2 req).1 =
        Except.error ⟨401, "Invalid refresh token"⟩ := by
  have hjv2 : jwtVerify cfg.refreshSecret t2 r1 = some r1 := by
    rw [jwtVerify, if_pos ⟨hkey, hunexp⟩]
  have hfind : findById db r1.sub = some user := by
    rw [hsub]
    exact hmem
  have hval : refreshValidate cfg t2 db req = Except.ok user := by
    simp [refreshValidate, hreq, hjv2, hfind, hstored]
  have hgen : generateAccessAndRefreshToken cfg t2 db user.id =
      Except.ok (generateAccessToken cfg user.id t2, generateRefreshToken cfg user.id t2,
        saveUser db { user with refreshToken := some (generateRefreshToken cfg user.id t2) }) := by
    simp [generateAccessAndRefreshToken, hmem]
  have hne : generateRefreshToken cfg user.id t2 ≠ r1 := by
    intro hcontra
    have hiat : (generateRefreshToken cfg user.id t2).iat = r1.iat := by
      rw [hcontra]
    simp [generateRefreshToken] at hiat
    omega
  refine ⟨{ accessToken := generateAccessToken cfg user.id t2,
            refreshToken := generateRefreshToken cfg user.id t2,
            cookies := [("accessToken", generateAccessToken cfg user.id t2),
                        ("refreshToken", generateRefreshToken cfg user.id t2)] },
          saveUser db { user with refreshToken := some (generateRefreshToken cfg user.id t2) },
          ?_, hne, ?_⟩
  · simp [refreshAccessToken, hval, refreshFinish, hgen]
  · intro t3
    have hfw : findById db
        ({ user with refreshToken := some (generateRefreshToken cfg user.id t2) } : UserRec).id
        = some user := hmem
    have hfind2 : findById
        (saveUser db { user with refreshToken := some (generateRefreshToken cfg user.id t2) })
        r1.sub
        = some { user with refreshToken := some (generateRefreshToken cfg user.id t2) } := by
      rw [hsub]
      exact findById_saveUser db
        { user with refreshToken := some (generateRefreshToken cfg user.id t2) } user hfw
    by_cases hc : r1.key = cfg.refreshSecret ∧ t3 < r1.exp
    · have hjv3 : jwtVerify cfg.refreshSecret t3 r1 = some r1 := by
        rw [jwtVerify, if_pos hc]
      have hbe : (some r1 ==
          ({ user with refreshToken := some (generateRefreshToken cfg user.id t2) } : UserRec).refreshToken)
          = false := by
        rw [beq_eq_false_iff_ne]
        intro hcontra
        apply hne
        have := (Option.some.injEq r1 (generateRefreshToken cfg user.id t2)).mp (by simpa using hcontra)
        exact this.symm
      simp [refreshAccessToken, refreshValidate, hreq, hjv3, hfind2, hbe, refreshFinish]
    · have hjv3 : jwtVerify cfg.refreshSecret t3 r1 = none := by
        rw [jwtVerify, if_neg hc]
      simp [refreshAccessToken, refreshValidate, hreq, hjv3, refreshFinish]

/-- Witness for C1: a concrete principal with a stored valid token,
rotating at instant 5 and replaying afterwards. -/
theorem C1_single_use_rotation_witness :
    ∃ (succ : RefreshSuccess) (db2 : DB),
      refreshAccessToken ⟨1, 2, 60, 1000⟩ 5
          [{ id := 7, username := "alice", email := "a@x.com",
             passwordHash := bcryptHash "pw",
             refreshToken := some ⟨7, 0, 100, TokenKind.refresh, 2⟩ }]
          ⟨some ⟨7, 0, 100, TokenKind.refresh, 2⟩, none⟩ = (Except.ok succ, db2) ∧
      succ.refreshToken ≠ ⟨7, 0, 100, TokenKind.refresh, 2⟩ ∧
      ∀ t3 : Nat, (refreshAccessToken ⟨1, 2, 60, 1000⟩ t3 db2
          ⟨some ⟨7, 0, 100, TokenKind.refresh, 2⟩, none⟩).1 =
        Except.error ⟨401, "Invalid refresh token"⟩ :=
  C1_single_use_rotation ⟨1, 2, 60, 1000⟩
    [{ id := 7, username := "alice", email := "a@x.com",
       passwordHash := bcryptHash "pw",
       refreshToken := some ⟨7, 0, 100, TokenKind.refresh, 2⟩ }]
    { id := 7, username := "alice", email := "a@x.com",
      passwordHash := bcryptHash "pw",
      refreshToken := some ⟨7, 0, 100, TokenKind.refresh, 2⟩ }
    ⟨7, 0, 100, TokenKind.refresh, 2⟩ 5
    ⟨some ⟨7, 0, 100, TokenKind.refresh, 2⟩, none⟩
    rfl rfl rfl rfl (by decide) (by decide) rfl

/-- C2: the rotation write is not a compare-and-set — `user.save()` inside
`generateAccessAndRefreshToken` overwrites the stored refresh token
unconditionally. In the interleaving of two concurrent refresh handlers
presenting the same valid token in which both read-and-validate phases
precede both write phases, BOTH calls succeed, contradicting the
exactly-one-success requirement. -/
theorem C2_two_concurrent_refreshes_both_succeed :
    ∃ (sA sB : RefreshSuccess) (db2 : DB),
      twoConcurrentRefresh ⟨1, 2, 60, 1000⟩ 5
          [{ id := 7, username := "alice", email := "a@x.com",
             passwordHash := bcryptHash "pw",
             refreshToken := some ⟨7, 0, 100, TokenKind.refresh, 2⟩ }]
          ⟨some ⟨7, 0, 100, TokenKind.refresh, 2⟩, none⟩ =
        (Except.ok sA, Except.ok sB, db2) :=
  ⟨_, _, _, rfl⟩

/-- C4 counterexample: issuing the token pair does modify persisted state —
the call rewrites the principal's record with the new refresh token, so the
resulting store differs from the initial one. -/
theorem C4_issuing_mutates_store :
    ∃ (acc ref : TokenClaims) (db2 : DB),
      generateAccessAndRefreshToken ⟨1, 2, 60, 1000⟩ 5
          [{ id := 7, username := "alice", email := "a@x.com",
             passwordHash := bcryptHash "pw", refreshToken := none }] 7 =
        Except.ok (acc, ref, db2) ∧
      db2 ≠ [{ id := 7, username := "alice", email := "a@x.com",
               passwordHash := bcryptHash "pw", refreshToken := none }] := by
  refine ⟨_, _, _, rfl, ?_⟩
  decide

/-- C4 amended: `generateAccessAndRefreshToken` both issues the pair and
persists the refresh token into the principal's record itself; its caller
(the refresh flow) performs no separate persistence step — the store it
returns is exactly the one the issuer wrote. -/
theorem C4_issuer_persists_itself (cfg : AuthConfig) (now : Nat) (db : DB)
    (user : UserRec) (hmem : findById db user.id = some user) :
    ∃ (acc ref : TokenClaims) (db2 : DB),
      generateAccessAndRefreshToken cfg now db user.id = Except.ok (acc, ref, db2) ∧
      findById db2 user.id = some { user with refreshToken := some ref } ∧
      (∀ req : RefreshRequest, refreshValidate cfg now db req = Except.ok user →
          (refreshAccessToken cfg now db req).2 = db2) := by
  refine ⟨generateAccessToken cfg user.id now, generateRefreshToken cfg user.id now,
    saveUser db { user with refreshToken := some (generateRefreshToken cfg user.id now) },
    ?_, ?_, ?_⟩
  · simp [generateAccessAndRefreshToken, hmem]
  · exact findById_saveUser db
      { user with refreshToken := some (generateRefreshToken cfg user.id now) } user hmem
  · intro req hv
    simp [refreshAccessToken, hv, refreshFinish, generateAccessAndRefreshToken, hmem]

/-- Witness for the amended C4 at a concrete principal. -/
theorem C4_issuer_persists_itself_witness :
    ∃ (acc ref : TokenClaims) (db2 : DB),
      generateAccessAndRefreshToken ⟨1, 2, 60, 1000⟩ 5
          [{ id := 7, username := "alice", email := "a@x.com",
             passwordHash := bcryptHash "pw", refreshToken := none }] 7 =
        Except.ok (acc, ref, db2) ∧
      findById db2 7 = some { id := 7, username := "alice", email := "a@x.com",
                              passwordHash := bcryptHash "pw",
                              refreshToken := some ref } ∧
      (∀ req : RefreshRequest,
          refreshValidate ⟨1, 2, 60, 1000⟩ 5
              [{ id := 7, username := "alice", email := "a@x.com",
                 passwordHash := bcryptHash "pw", refreshToken := none }] req =
            Except.ok { id := 7, username := "alice", email := "a@x.com",
                        passwordHash := bcryptHash "pw", refreshToken := none } →
          (refreshAccessToken ⟨1, 2, 60, 1000⟩ 5
              [{ id := 7, username := "alice", email := "a@x.com",
                 passwordHash := bcryptHash "pw", refreshToken := none }] req).2 = db2) :=
  C4_issuer_persists_itself ⟨1, 2, 60, 1000⟩ 5
    [{ id := 7, username := "alice", email := "a@x.com",
       passwordHash := bcryptHash "pw", refreshToken := none }]
    { id := 7, username := "alice", email := "a@x.com",
      passwordHash := bcryptHash "pw", refreshToken := none } rfl

/-- C3: once a candidate passes signature verification, the rejection for an
unknown principal and the rejection for a stored value (null or non-null)
not bit-equal to the candidate are literally the same error — same 401
status, same "Invalid refresh token" message — so the caller cannot tell an
already-rotated token from a forged one. -/
theorem C3_uniform_rejection (cfg : AuthConfig) (now : Nat) (db : DB)
    (req : RefreshRequest) (tok : TokenClaims)
    (hin : incomingRefreshToken req = some tok)
    (hsig : jwtVerify cfg.refreshSecret now tok = some tok) :
    (findById db tok.sub = none →
        (refreshAccessToken cfg now db req).1 =
          Except.error ⟨401, "Invalid refresh token"⟩) ∧
    (∀ user : UserRec, findById db tok.sub = some user → user.refreshToken = none →
        (refreshAccessToken cfg now db req).1 =
          Except.error ⟨401, "Invalid refresh token"⟩) ∧
    (∀ user : UserRec, findById db tok.sub = some user → user.refreshToken ≠ some tok →
        (refreshAccessToken cfg now db req).1 =
          Except.error ⟨401, "Invalid refresh token"⟩) := by
  have hmis : ∀ user : UserRec, findById db tok.sub = some user →
      user.refreshToken ≠ some tok →
      (refreshAccessToken cfg now db req).1 =
        Except.error ⟨401, "Invalid refresh token"⟩ := by
    intro user hu hne
    have hbe : (some tok == user.refreshToken) = false := by
      rw [beq_eq_false_iff_ne]
      intro hcontra
      exact hne hcontra.symm
    simp [refreshAccessToken, refreshValidate, hin, hsig, hu, hbe, refreshFinish]
  refine ⟨?_, ?_, hmis⟩
  · intro hnone
    simp [refreshAccessToken, refreshValidate, hin, hsig, hnone, refreshFinish]
  · intro user hu hnull
    exact hmis user hu (by simp [hnull])

/-- Witness for C3 at a signature-valid token whose principal is unknown to
the store. -/
theorem C3_uniform_rejection_witness :
    (refreshAccessToken ⟨1, 2, 60, 1000⟩ 5 []
        ⟨some ⟨7, 0, 100, TokenKind.refresh, 2⟩, none⟩).1 =
      Except.error ⟨401, "Invalid refresh token"⟩ :=
  (C3_uniform_rejection ⟨1, 2, 60, 1000⟩ 5 []
      ⟨some ⟨7, 0, 100, TokenKind.refresh, 2⟩, none⟩
      ⟨7, 0, 100, TokenKind.refresh, 2⟩ rfl rfl).1 rfl

/-- C5: logout nulls the stored refresh token, a second logout changes
nothing, and afterwards any refresh attempt presenting a token of that
principal — in particular the last-issued one — fails with a 401
AuthenticationError. -/
theorem C5_revocation (cfg : AuthConfig) (db : DB) (user : UserRec)
    (hmem : findById db user.id = some user) :
    findById (logoutUser db user.id).2 user.id =
      some { user with refreshToken := none } ∧
    logoutUser (logoutUser db user.id).2 user.id = logoutUser db user.id ∧
    (∀ (now : Nat) (r : TokenClaims) (req : RefreshRequest),
        incomingRefreshToken req = some r → r.sub = user.id →
        (refreshAccessToken cfg now (logoutUser db user.id).2 req).1 =
          Except.error ⟨401, "Invalid refresh token"⟩) := by
  have hf : ∀ v : UserRec,
      ((fun v => if v.id == user.id then { v with refreshToken := none } else v) v).id
        = v.id := by
    intro v
    by_cases hv : v.id = user.id
    · simp [hv]
    · simp [hv]
  have hnulled : findById (logoutUser db user.id).2 user.id =
      some { user with refreshToken := none } := by
    simp only [logoutUser]
    rw [findById_map _ hf db user.id, hmem]
    simp
  refine ⟨hnulled, ?_, ?_⟩
  · simp only [logoutUser]
    have : (db.map fun v => if v.id == user.id then { v with refreshToken := none } else v).map
        (fun v => if v.id == user.id then { v with refreshToken := none } else v) =
        db.map fun v => if v.id == user.id then { v with refreshToken := none } else v := by
      rw [List.map_map]
      apply List.map_congr_left
      intro v _
      by_cases hv : v.id = user.id
      · simp [Function.comp, hv]
      · simp [Function.comp, hv]
    rw [this]
  · intro now r req hin hsub
    by_cases hc : r.key = cfg.refreshSecret ∧ now < r.exp
    · have hjv : jwtVerify cfg.refreshSecret now r = some r := by
        rw [jwtVerify, if_pos hc]
      have hfind : findById (logoutUser db user.id).2 r.sub =
          some { user with refreshToken := none } := by
        rw [hsub]
        exact hnulled
      simp [refreshAccessToken, refreshValidate, hin, hjv, hfind, refreshFinish]
    · have hjv : jwtVerify cfg.refreshSecret now r = none := by
        rw [jwtVerify, if_neg hc]
      simp [refreshAccessToken, refreshValidate, hin, hjv, refreshFinish]

/-- Witness for C5 at a concrete principal holding a stored refresh token. -/
theorem C5_revocation_witness :
    (refreshAccessToken ⟨1, 2, 60, 1000⟩ 5
        (logoutUser
          [{ id := 7, username := "alice", email := "a@x.com",
             passwordHash := bcryptHash "pw",
             refreshToken := some ⟨7, 0, 100, TokenKind.refresh, 2⟩ }] 7).2
        ⟨some ⟨7, 0, 100, TokenKind.refresh, 2⟩, none⟩).1 =
      Except.error ⟨401, "Invalid refresh token"⟩ :=
  (C5_revocation ⟨1, 2, 60, 1000⟩
      [{ id := 7, username := "alice", email := "a@x.com",
         passwordHash := bcryptHash "pw",
         refreshToken := some ⟨7, 0, 100, TokenKind.refresh, 2⟩ }]
      { id := 7, username := "alice", email := "a@x.com",
        passwordHash := bcryptHash "pw",
        refreshToken := some ⟨7, 0, 100, TokenKind.refresh, 2⟩ } rfl).2.2
    5 ⟨7, 0, 100, TokenKind.refresh, 2⟩
    ⟨some ⟨7, 0, 100, TokenKind.refresh, 2⟩, none⟩ rfl rfl

/-- C8: the refresh endpoint takes the candidate token from the
`refreshToken` cookie, falls back to the request body field when the cookie
is absent, and when neither is present rejects with 401 "Unauthorized"
without any further processing (store untouched). -/
theorem C8_refresh_token_extraction (cfg : AuthConfig) (now : Nat) (db : DB) :
    (∀ (req : RefreshRequest) (tok : TokenClaims), req.cookieToken = some tok →
        incomingRefreshToken req = some tok) ∧
    (∀ (req : RefreshRequest) (tok : TokenClaims), req.cookieToken = none →
        req.bodyToken = some tok → incomingRefreshToken req = some tok) ∧
    (∀ req : RefreshRequest, req.cookieToken = none → req.bodyToken = none →
        refreshAccessToken cfg now db req = (Except.error ⟨401, "Unauthorized"⟩, db)) := by
  refine ⟨?_, ?_, ?_⟩
  · intro req tok h
    simp [incomingRefreshToken, h]
  · intro req tok hc hb
    simp [incomingRefreshToken, hc, hb]
  · intro req hc hb
    simp [refreshAccessToken, refreshValidate, incomingRefreshToken, hc, hb, refreshFinish]

/-- C6: after every completed operation at most one refresh token is
accepted per principal: (1) login stores exactly the just-issued refresh
token; (2) a successful refresh replaces the stored token with the newly
issued one; (3) logout leaves the stored token null; (4) a refresh is
accepted only when the presented token is bit-equal to the stored value;
(5) hence two accepted presentations for the same principal carry the same
token. -/
theorem C6_single_active_session (cfg : AuthConfig) (now : Nat) :
    (∀ (db : DB) (req : LoginRequest) (succ : LoginSuccess) (db2 : DB),
        loginUser cfg now db req = (Except.ok succ, db2) →
        ∃ u : UserRec, findById db2 succ.refreshToken.sub = some u ∧
          u.refreshToken = some succ.refreshToken) ∧
    (∀ (db : DB) (req : RefreshRequest) (succ : RefreshSuccess) (db2 : DB),
        refreshAccessToken cfg now db req = (Except.ok succ, db2) →
        ∃ u : UserRec, findById db2 succ.refreshToken.sub = some u ∧
          u.refreshToken = some succ.refreshToken) ∧
    (∀ (db : DB) (uid : Nat) (u : UserRec),
        findById (logoutUser db uid).2 uid = some u → u.refreshToken = none) ∧
    (∀ (db : DB) (req : RefreshRequest) (u : UserRec),
        refreshValidate cfg now db req = Except.ok u →
        incomingRefreshToken req = u.refreshToken) ∧
    (∀ (db : DB) (reqA reqB : RefreshRequest) (uA uB : UserRec),
        refreshValidate cfg now db reqA = Except.ok uA →
        refreshValidate cfg now db reqB = Except.ok uB →
        uA.id = uB.id →
        incomingRefreshToken reqA = incomingRefreshToken reqB) := by
  have store_after_gen : ∀ (db : DB) (uid : Nat) (acc ref : TokenClaims) (db2 : DB),
      generateAccessAndRefreshToken cfg now db uid = Except.ok (acc, ref, db2) →
      ∃ u : UserRec, findById db2 ref.sub = some u ∧ u.refreshToken = some ref := by
    intro db uid acc ref db2 hg
    obtain ⟨w, hfw, hwid, _, href, hdb2⟩ := generate_ok_inv cfg now db uid acc ref db2 hg
    have hsub : ref.sub = w.id := by
      rw [href]
      simp [generateRefreshToken]
    have hfw2 : findById db w.id = some w := by
      rw [hwid]
      exact hfw
    refine ⟨{ w with refreshToken := some ref }, ?_, rfl⟩
    rw [hdb2, hsub]
    exact findById_saveUser db { w with refreshToken := some ref } w hfw2
  refine ⟨?_, ?_, ?_, ?_, ?_⟩
  · intro db req succ db2 h
    simp only [loginUser] at h
    split at h
    · simp at h
    · split at h
      · simp at h
      next user hfo =>
        split at h
        · simp at h
        · split at h
          · simp at h
          next acc ref db2x hg =>
            simp only [Prod.mk.injEq, Except.ok.injEq] at h
            obtain ⟨hsucc, hdb⟩ := h
            subst hdb
            have hrt : succ.refreshToken = ref := by
              rw [← hsucc]
            rw [hrt]
            exact store_after_gen db user.id acc ref db2x hg
  · intro db req succ db2 h
    rw [refreshAccessToken] at h
    cases hv : refreshValidate cfg now db req with
    | error e =>
        rw [hv] at h
        simp [refreshFinish] at h
    | ok user =>
        rw [hv] at h
        simp only [refreshFinish] at h
        split at h
        · simp at h
        next acc ref db2x hg =>
          simp only [Prod.mk.injEq, Except.ok.injEq] at h
          obtain ⟨hsucc, hdb⟩ := h
          subst hdb
          have hrt : succ.refreshToken = ref := by
            rw [← hsucc]
          rw [hrt]
          exact store_after_gen db user.id acc ref db2x hg
  · intro db uid u h
    have hf : ∀ v : UserRec,
        ((fun v => if v.id == uid then { v with refreshToken := none } else v) v).id
          = v.id := by
      intro v
      by_cases hv : v.id = uid
      · simp [hv]
      · simp [hv]
    simp only [logoutUser] at h
    rw [findById_map _ hf db uid] at h
    cases hfi : findById db uid with
    | none =>
        rw [hfi] at h
        simp at h
    | some v =>
        rw [hfi] at h
        have hv : v.id = uid := findById_id db uid v hfi
        have hcond : (v.id == uid) = true := by simp [hv]
        simp [hcond] at h
        simp [← h, hv]
  · intro db req u h
    obtain ⟨tok, hin, _, _, hstored⟩ := refreshValidate_ok_inv cfg now db req u h
    rw [hin, hstored]
  · intro db reqA reqB uA uB hA hB hid
    obtain ⟨tokA, hinA, _, hfiA, hstA⟩ := refreshValidate_ok_inv cfg now db reqA uA hA
    obtain ⟨tokB, hinB, _, hfiB, hstB⟩ := refreshValidate_ok_inv cfg now db reqB uB hB
    have hidA : uA.id = tokA.sub := findById_id db tokA.sub uA hfiA
    have hidB : uB.id = tokB.sub := findById_id db tokB.sub uB hfiB
    have hsame : tokA.sub = tokB.sub := by
      rw [← hidA, ← hidB, hid]
    rw [hsame] at hfiA
    have huAB : uA = uB := by
      rw [hfiA] at hfiB
      exact (Option.some.injEq uA uB).mp hfiB
    rw [hinA, hinB, hstA, hstB, huAB]

/-- Witness for C6: a concrete logout, via conjunct (3). -/
theorem C6_single_active_session_witness :
    ({ id := 7, username := "alice", email := "a@x.com",
       passwordHash := bcryptHash "pw", refreshToken := none } : UserRec).refreshToken
      = none :=
  (C6_single_active_session ⟨1, 2, 60, 1000⟩ 5).2.2.1
    [{ id := 7, username := "alice", email := "a@x.com",
       passwordHash := bcryptHash "pw",
       refreshToken := some ⟨7, 0, 100, TokenKind.refresh, 2⟩ }] 7
    { id := 7, username := "alice", email := "a@x.com",
      passwordHash := bcryptHash "pw", refreshToken := none } rfl

/-- C7: the login outcome partition — 400 when the required identifier
fields are missing, 404 when no principal matches, 401 when the secret does
not verify against the stored hash, and 200 with both token cookies plus an
identity payload when it does. -/
theorem C7_login_partition (cfg : AuthConfig) (now : Nat) (db : DB) (req : LoginRequest) :
    ((truthy req.username || truthy req.email) = false →
        (loginUser cfg now db req).1 = Except.error ⟨400, "Username or email required"⟩) ∧
    ((truthy req.username || truthy req.email) = true →
        findByUsernameOrEmail db req.username req.email = none →
        (loginUser cfg now db req).1 = Except.error ⟨404, "User not found"⟩) ∧
    (∀ user : UserRec, (truthy req.username || truthy req.email) = true →
        findByUsernameOrEmail db req.username req.email = some user →
        isPasswordCorrect user.passwordHash req.password = false →
        (loginUser cfg now db req).1 = Except.error ⟨401, "Wrong password"⟩) ∧
    (∀ user w : UserRec, (truthy req.username || truthy req.email) = true →
        findByUsernameOrEmail db req.username req.email = some user →
        isPasswordCorrect user.passwordHash req.password = true →
        findById db user.id = some w →
        ∃ (succ : LoginSuccess) (db2 : DB),
          loginUser cfg now db req = (Except.ok succ, db2) ∧
          succ.cookies = [("accessToken", succ.accessToken),
                          ("refreshToken", succ.refreshToken)] ∧
          succ.user.isSome = true) := by
  refine ⟨?_, ?_, ?_, ?_⟩
  · intro h
    simp [loginUser, h]
  · intro h1 h2
    simp [loginUser, h1, h2]
  · intro user h1 h2 h3
    simp [loginUser, h1, h2, h3]
  · intro user w h1 h2 h3 h4
    have hw : w.id = user.id := findById_id db user.id w h4
    have hgen : generateAccessAndRefreshToken cfg now db user.id =
        Except.ok (generateAccessToken cfg w.id now, generateRefreshToken cfg w.id now,
          saveUser db { w with refreshToken := some (generateRefreshToken cfg w.id now) }) := by
      simp [generateAccessAndRefreshToken, h4]
    have hfw2 : findById db
        ({ w with refreshToken := some (generateRefreshToken cfg w.id now) } : UserRec).id
        = some w := by
      show findById db w.id = some w
      rw [hw]
      exact h4
    have hfind2 : findById
        (saveUser db { w with refreshToken := some (generateRefreshToken cfg w.id now) })
        user.id
        = some { w with refreshToken := some (generateRefreshToken cfg w.id now) } := by
      rw [← hw]
      exact findById_saveUser db
        { w with refreshToken := some (generateRefreshToken cfg w.id now) } w hfw2
    refine ⟨{ user := (findById
                (saveUser db { w with refreshToken := some (generateRefreshToken cfg w.id now) })
                user.id).map toPublic,
              accessToken := generateAccessToken cfg w.id now,
              refreshToken := generateRefreshToken cfg w.id now,
              cookies := [("accessToken", generateAccessToken cfg w.id now),
                          ("refreshToken", generateRefreshToken cfg w.id now)] },
            saveUser db { w with refreshToken := some (generateRefreshToken cfg w.id now) },
            ?_, rfl, ?_⟩
    · simp [loginUser, h1, h2, h3, hgen]
    · simp [hfind2]

/-- Witness for C7: a concrete successful login (200-case of the
partition). -/
theorem C7_login_partition_witness :
    ∃ (succ : LoginSuccess) (db2 : DB),
      loginUser ⟨1, 2, 60, 1000⟩ 5
          [{ id := 7, username := "alice", email := "a@x.com",
             passwordHash := bcryptHash "pw", refreshToken := none }]
          { email := none, username := some "alice", password := some "pw" } =
        (Except.ok succ, db2) ∧
      succ.cookies = [("accessToken", succ.accessToken),
                      ("refreshToken", succ.refreshToken)] ∧
      succ.user.isSome = true :=
  (C7_login_partition ⟨1, 2, 60, 1000⟩ 5
      [{ id := 7, username := "alice", email := "a@x.com",
         passwordHash := bcryptHash "pw", refreshToken := none }]
      { email := none, username := some "alice", password := some "pw" }).2.2.2
    { id := 7, username := "alice", email := "a@x.com",
      passwordHash := bcryptHash "pw", refreshToken := none }
    { id := 7, username := "alice", email := "a@x.com",
      passwordHash := bcryptHash "pw", refreshToken := none }
    rfl rfl rfl rfl

/-- Witness for C8 at a concrete request with neither token slot filled. -/
theorem C8_refresh_token_extraction_witness :
    refreshAccessToken ⟨1, 2, 60, 1000⟩ 5 [] ⟨none, none⟩ =
      (Except.error ⟨401, "Unauthorized"⟩, []) :=
  (C8_refresh_token_extraction ⟨1, 2, 60, 1000⟩ 5 []).2.2 ⟨none, none⟩ rfl rfl

/-- C9: every rejected refresh request (missing token, failed
signature/expiry verification, unknown principal, or stored-token mismatch)
leaves the store exactly as it was; new tokens are only persisted after all
checks pass. -/
theorem C9_rejection_preserves_state (cfg : AuthConfig) (now : Nat) (db : DB)
    (req : RefreshRequest) (e : ApiError)
    (h : (refreshAccessToken cfg now db req).1 = Except.error e) :
    (refreshAccessToken cfg now db req).2 = db := by
  rw [refreshAccessToken] at h ⊢
  cases hv : refreshValidate cfg now db req with
  | error e2 => simp [refreshFinish, hv]
  | ok user =>
      rw [hv] at h
      cases hg : generateAccessAndRefreshToken cfg now db user.id with
      | error e3 => simp [refreshFinish, hg]
      | ok trip =>
          obtain ⟨acc, ref, db2⟩ := trip
          simp [refreshFinish, hg] at h

/-- Witness for C9 at a concrete rejected request. -/
theorem C9_rejection_preserves_state_witness :
    (refreshAccessToken ⟨1, 2, 60, 1000⟩ 5 [] ⟨none, none⟩).2 = [] :=
  C9_rejection_preserves_state ⟨1, 2, 60, 1000⟩ 5 [] ⟨none, none⟩
    ⟨401, "Unauthorized"⟩ rfl

/-- C10: the registration 400 "All fields are required" fires exactly when
some supplied field trims to the empty string; a request with a field
entirely absent passes the check (`trimsToEmpty none = false`) and proceeds
to the duplicate-user lookup. -/
theorem C10_register_absent_fields_pass (db : DB) (req : RegisterRequest) :
    (registerUser db req = RegisterOutcome.fieldsRequiredError ↔
      [req.fullname, req.email, req.username, req.password].any trimsToEmpty = true) ∧
    ([req.fullname, req.email, req.username, req.password].any trimsToEmpty = false →
      registerUser db req =
        (match findByUsernameOrEmail db req.username req.email with
         | some _ => RegisterOutcome.duplicateError
         | none => RegisterOutcome.proceedsPastDuplicateCheck)) ∧
    trimsToEmpty none = false := by
  refine ⟨?_, ?_, rfl⟩
  · rw [registerUser]
    by_cases h : [req.fullname, req.email, req.username, req.password].any trimsToEmpty = true
    · simp [h]
    · simp [h]
      cases findByUsernameOrEmail db req.username req.email <;> simp
  · intro h
    rw [registerUser]
    simp [h]

/-- Witness for C10: `fullname` entirely absent, other fields nonempty — the
check passes and the handler reaches the duplicate lookup (empty store, so
it proceeds). -/
theorem C10_register_absent_fields_pass_witness :
    registerUser []
        { fullname := none, email := some "a@x.com",
          username := some "alice", password := some "pw" } =
      RegisterOutcome.proceedsPastDuplicateCheck :=
  Eq.trans
    ((C10_register_absent_fields_pass []
        { fullname := none, email := some "a@x.com",
          username := some "alice", password := some "pw" }).2.1 (by decide))
    rfl

end VidTube
